import Mathlib

/-!
Shallow embedding of `src/mbgl/style/paint_property_binder.hpp` from the
mapbox-gl-native style layer: the three paint-property binder strategies
(constant, source-function, composite-function), the variant dispatcher
`PaintPropertyBinder`, and the property-set aggregate `PaintPropertyBinders`.

Zoom levels and interpolation factors are modelled as real numbers (the C++
uses `float`); property values, attribute values and features are type
parameters (`T`, `A`, `Feature`), the static conversion `Attribute::value`
becoming an `aval : T → A` field fixed at construction.  The `const` C++
query methods are translated in state-passing style: each returns a pair of
its result and the (unchanged) binder, so that frame properties are
statable.
-/

/-- A pair of endpoints, mirroring `mbgl::Range<T>` (`util/range.hpp`). -/
structure Range (α : Type) where
  min : α
  max : α
deriving DecidableEq, Repr

/-- Modelled from the spec: `PossiblyEvaluatedPropertyValue<T>` is not under
`src/`; per the spec it is a tagged union that either holds a constant `T`
or a still-data-driven function, queried via `isConstant` and `constantOr`.
The function payload is never consulted by the code under `src/`, so it is
modelled as a bare constructor. -/
inductive PossiblyEvaluatedPropertyValue (T : Type) where
  | constant (t : T)
  | function
deriving DecidableEq, Repr

namespace PossiblyEvaluatedPropertyValue

/-- Mirrors `PossiblyEvaluatedPropertyValue::isConstant()`. -/
def isConstant {T : Type} : PossiblyEvaluatedPropertyValue T → Bool
  | .constant _ => true
  | .function => false

/-- Mirrors `PossiblyEvaluatedPropertyValue::constant()`, which returns an
optional holding the constant when the union holds one. -/
def constantValue {T : Type} : PossiblyEvaluatedPropertyValue T → Option T
  | .constant t => some t
  | .function => none

/-- Mirrors `PossiblyEvaluatedPropertyValue::constantOr(t)`: the stored
constant when present, the fallback argument otherwise. -/
def constantOr {T : Type} (v : PossiblyEvaluatedPropertyValue T) (t : T) : T :=
  match v.constantValue with
  | some c => c
  | none => t

end PossiblyEvaluatedPropertyValue

/-- Modelled from the spec: `SourceFunction<T>` (not under `src/`) is an
expression over a feature's attributes; `evaluate(feature, default)`
substitutes the supplied default on evaluation failure.  Evaluation is
modelled as a partial function `Feature → Option T`. -/
structure SourceFunction (Feature T : Type) where
  eval : Feature → Option T

/-- Mirrors `SourceFunction<T>::evaluate(feature, defaultValue)`: the
evaluated value, or `defaultValue` when evaluation fails. -/
def SourceFunction.evaluate {Feature T : Type} (f : SourceFunction Feature T)
    (feature : Feature) (defaultValue : T) : T :=
  match f.eval feature with
  | some v => v
  | none => defaultValue

/-- Modelled from the spec: `CompositeFunction<T>` (not under `src/`) is a
zoom-and-feature function with a declared zoom-interpolation `base`;
`coveringRanges(zoom)` yields the bracketing pair of zoom stops together
with the inner (per-attribute) stops nested within that pair, and
`evaluate(innerStops, feature, default)` yields the feature's (min, max)
value range at those inner stops, substituting the default on failure.
The inner-stops representation is an abstract type parameter `S`. -/
structure CompositeFunction (Feature T S : Type) where
  base : ℝ
  coveringRangesFn : ℝ → Range ℝ × Range S
  evaluateFn : Range S → Feature → T → Range T

/-- Mirrors `CompositeFunction<T>::coveringRanges(zoom)`. -/
def CompositeFunction.coveringRanges {Feature T S : Type}
    (f : CompositeFunction Feature T S) (zoom : ℝ) : Range ℝ × Range S :=
  f.coveringRangesFn zoom

/-- Mirrors `CompositeFunction<T>::evaluate(innerStops, feature, default)`. -/
def CompositeFunction.evaluate {Feature T S : Type}
    (f : CompositeFunction Feature T S) (stops : Range S) (feature : Feature)
    (defaultValue : T) : Range T :=
  f.evaluateFn stops feature defaultValue

open Classical in
/-- Modelled from the spec: `util::interpolationFactor(base, range, z)`
(`util/interpolate.hpp`, not under `src/`) computes the normalized position
of `z` within `range` using the style specification's exponential
zoom-interpolation formula for `base`, with base 1.0 giving linear
interpolation and a degenerate range giving 0. -/
noncomputable def util.interpolationFactor (base : ℝ) (range : Range ℝ)
    (z : ℝ) : ℝ :=
  if range.max - range.min = 0 then 0
  else if base = 1 then (z - range.min) / (range.max - range.min)
  else (base ^ (z - range.min) - 1) / (base ^ (range.max - range.min) - 1)

/-- An attribute binding over vertex records of type `V`: either a constant
broadcast to every vertex (`Attribute::ConstantBinding`) or a reference into
an uploaded vertex buffer (the result of `allVariableBindings(*buffer)`). -/
inductive AttributeBinding (V : Type) where
  | constantBinding (value : V)
  | variableBinding (buffer : List V)
deriving DecidableEq, Repr

/-- The emplace loop shared by both `populateVertexVector` bodies:
`for (std::size_t i = vec.vertexSize(); i < length; ++i) vec.emplace_back(value)`. -/
def emplaceLoop {V : Type} (value : V) (length : ℕ) (vec : List V) : List V :=
  if vec.length < length then emplaceLoop value length (vec ++ [value]) else vec
termination_by length - vec.length
decreasing_by simp; omega

/-- `ConstantPaintPropertyBinder<T, A>`: stores the constant captured at
construction; `aval` is the static `Attribute::value` conversion. -/
structure ConstantPaintPropertyBinder (T A : Type) where
  constant : T
  aval : T → A

namespace ConstantPaintPropertyBinder

/-- Mirrors the `ConstantPaintPropertyBinder` constructor. -/
def construct {T A : Type} (constant : T) (aval : T → A) :
    ConstantPaintPropertyBinder T A :=
  ⟨constant, aval⟩

/-- Mirrors `populateVertexVector(feature, length)`: a no-op. -/
def populateVertexVector {Feature T A : Type}
    (b : ConstantPaintPropertyBinder T A) (_feature : Feature) (_length : ℕ) :
    ConstantPaintPropertyBinder T A :=
  b

/-- Mirrors `upload(context)`: a no-op. -/
def upload {T A : Type} (b : ConstantPaintPropertyBinder T A) :
    ConstantPaintPropertyBinder T A :=
  b

/-- Mirrors `attributeBinding(currentValue)`: broadcasts
`Attribute::value(currentValue.constantOr(constant))`.  A `const` method:
the returned state is the receiver. -/
def attributeBinding {T A : Type} (b : ConstantPaintPropertyBinder T A)
    (currentValue : PossiblyEvaluatedPropertyValue T) :
    AttributeBinding A × ConstantPaintPropertyBinder T A :=
  (.constantBinding (b.aval (currentValue.constantOr b.constant)), b)

/-- Mirrors `interpolationFactor(float)`: always 0. -/
def interpolationFactor {T A : Type} (b : ConstantPaintPropertyBinder T A)
    (_currentZoom : ℝ) : ℝ × ConstantPaintPropertyBinder T A :=
  (0, b)

end ConstantPaintPropertyBinder

/-- `SourceFunctionPaintPropertyBinder<T, A>`: stores the source function and
the property default; accumulates one vertex record per output vertex. -/
structure SourceFunctionPaintPropertyBinder (Feature T A : Type) where
  function : SourceFunction Feature T
  defaultValue : T
  vertexVector : List A
  vertexBuffer : Option (List A)
  aval : T → A

namespace SourceFunctionPaintPropertyBinder

/-- Mirrors the `SourceFunctionPaintPropertyBinder` constructor: empty
vertex vector, no uploaded buffer yet. -/
def construct {Feature T A : Type} (function : SourceFunction Feature T)
    (defaultValue : T) (aval : T → A) :
    SourceFunctionPaintPropertyBinder Feature T A :=
  ⟨function, defaultValue, [], none, aval⟩

/-- Mirrors `populateVertexVector(feature, length)`: evaluates the function
on the feature once (default on failure), converts via `Attribute::value`,
and emplaces copies until the vertex vector reaches `length`. -/
def populateVertexVector {Feature T A : Type}
    (b : SourceFunctionPaintPropertyBinder Feature T A) (feature : Feature)
    (length : ℕ) : SourceFunctionPaintPropertyBinder Feature T A :=
  let val := b.function.evaluate feature b.defaultValue
  let value := b.aval val
  { b with vertexVector := emplaceLoop value length b.vertexVector }

/-- Mirrors `upload(context)`: moves the vertex vector into a GPU buffer. -/
def upload {Feature T A : Type}
    (b : SourceFunctionPaintPropertyBinder Feature T A) :
    SourceFunctionPaintPropertyBinder Feature T A :=
  { b with vertexBuffer := some b.vertexVector }

/-- Mirrors `attributeBinding(currentValue)`: a broadcast of the live
constant when `currentValue.isConstant()`, otherwise a binding into the
uploaded buffer (dereferencing the optional buffer handle, hence `Option`).
A `const` method: the returned state is the receiver. -/
def attributeBinding {Feature T A : Type}
    (b : SourceFunctionPaintPropertyBinder Feature T A)
    (currentValue : PossiblyEvaluatedPropertyValue T) :
    Option (AttributeBinding A) × SourceFunctionPaintPropertyBinder Feature T A :=
  (match currentValue.constantValue with
   | some t => some (.constantBinding (b.aval t))
   | none => b.vertexBuffer.map fun buf => .variableBinding buf, b)

/-- Mirrors `interpolationFactor(float)`: always 0. -/
def interpolationFactor {Feature T A : Type}
    (b : SourceFunctionPaintPropertyBinder Feature T A) (_currentZoom : ℝ) :
    ℝ × SourceFunctionPaintPropertyBinder Feature T A :=
  (0, b)

end SourceFunctionPaintPropertyBinder

/-- `CompositeFunctionPaintPropertyBinder<T, A>`: stores the composite
function, the property default and the covering ranges fixed at
construction; each vertex record packs the (min, max) pair of attribute
values (`ZoomInterpolatedAttribute`), modelled as `A × A`. -/
structure CompositeFunctionPaintPropertyBinder (Feature T S A : Type) where
  function : CompositeFunction Feature T S
  defaultValue : T
  coveringRanges : Range ℝ × Range S
  vertexVector : List (A × A)
  vertexBuffer : Option (List (A × A))
  aval : T → A

namespace CompositeFunctionPaintPropertyBinder

/-- Mirrors the `CompositeFunctionPaintPropertyBinder` constructor: the
covering ranges are computed once from the construction-time zoom. -/
def construct {Feature T S A : Type} (function : CompositeFunction Feature T S)
    (zoom : ℝ) (defaultValue : T) (aval : T → A) :
    CompositeFunctionPaintPropertyBinder Feature T S A :=
  ⟨function, defaultValue, function.coveringRanges zoom, [], none, aval⟩

/-- Mirrors `populateVertexVector(feature, length)`: evaluates the function
at the stored inner stops to a `(min, max)` range, packs both endpoints into
one attribute value, and emplaces copies until the vector reaches `length`. -/
def populateVertexVector {Feature T S A : Type}
    (b : CompositeFunctionPaintPropertyBinder Feature T S A) (feature : Feature)
    (length : ℕ) : CompositeFunctionPaintPropertyBinder Feature T S A :=
  let range := b.function.evaluate b.coveringRanges.2 feature b.defaultValue
  let minMax := (b.aval range.min, b.aval range.max)
  { b with vertexVector := emplaceLoop minMax length b.vertexVector }

/-- Mirrors `upload(context)`: moves the vertex vector into a GPU buffer. -/
def upload {Feature T S A : Type}
    (b : CompositeFunctionPaintPropertyBinder Feature T S A) :
    CompositeFunctionPaintPropertyBinder Feature T S A :=
  { b with vertexBuffer := some b.vertexVector }

/-- Mirrors `attributeBinding(currentValue)`: when the live value is
constant, broadcasts `Attribute::value(val, val)` (the pair packing the
value as both endpoints); otherwise a binding into the uploaded buffer.
A `const` method: the returned state is the receiver. -/
def attributeBinding {Feature T S A : Type}
    (b : CompositeFunctionPaintPropertyBinder Feature T S A)
    (currentValue : PossiblyEvaluatedPropertyValue T) :
    Option (AttributeBinding (A × A)) ×
      CompositeFunctionPaintPropertyBinder Feature T S A :=
  (match currentValue.constantValue with
   | some t => some (.constantBinding (b.aval t, b.aval t))
   | none => b.vertexBuffer.map fun buf => .variableBinding buf, b)

/-- Mirrors `interpolationFactor(currentZoom)`: delegates to
`util::interpolationFactor(1.0f, std::get<0>(coveringRanges), currentZoom)`.
A `const` method: the returned state is the receiver. -/
noncomputable def interpolationFactor {Feature T S A : Type}
    (b : CompositeFunctionPaintPropertyBinder Feature T S A) (currentZoom : ℝ) :
    ℝ × CompositeFunctionPaintPropertyBinder Feature T S A :=
  (util.interpolationFactor 1 b.coveringRanges.1 currentZoom, b)

end CompositeFunctionPaintPropertyBinder

/-- The evaluated `PropertyValue` variant a `PaintPropertyBinder` is
constructed from: a constant, a source function, or a composite function
(the `value.match` at `PaintPropertyBinder`'s constructor). -/
inductive PropertyValue (Feature T S : Type) where
  | constant (t : T)
  | source (f : SourceFunction Feature T)
  | composite (f : CompositeFunction Feature T S)

/-- `PaintPropertyBinder<PaintProperty>::Binder`: the variant holding
exactly one of the three strategies, chosen once at construction. -/
inductive PaintPropertyBinder (Feature T S A : Type) where
  | constant (b : ConstantPaintPropertyBinder T A)
  | source (b : SourceFunctionPaintPropertyBinder Feature T A)
  | composite (b : CompositeFunctionPaintPropertyBinder Feature T S A)

/-- `PaintPropertyBinder<PaintProperty>::AttributeBinding`: the variant of a
plain attribute binding and a zoom-interpolated (paired) one. -/
def DispatchBinding (A : Type) : Type :=
  AttributeBinding A ⊕ AttributeBinding (A × A)

namespace PaintPropertyBinder

/-- Mirrors the `PaintPropertyBinder` constructor: matches on the evaluated
property value's variant and builds the corresponding strategy
(`PaintProperty::defaultValue()` is passed in as `defaultValue`). -/
def construct {Feature T S A : Type} (value : PropertyValue Feature T S)
    (zoom : ℝ) (defaultValue : T) (aval : T → A) :
    PaintPropertyBinder Feature T S A :=
  match value with
  | .constant c => .constant (ConstantPaintPropertyBinder.construct c aval)
  | .source f =>
      .source (SourceFunctionPaintPropertyBinder.construct f defaultValue aval)
  | .composite f =>
      .composite
        (CompositeFunctionPaintPropertyBinder.construct f zoom defaultValue aval)

/-- Mirrors `PaintPropertyBinder::populateVertexVector`: dispatches on the
active strategy. -/
def populateVertexVector {Feature T S A : Type}
    (b : PaintPropertyBinder Feature T S A) (feature : Feature) (length : ℕ) :
    PaintPropertyBinder Feature T S A :=
  match b with
  | .constant c => .constant (c.populateVertexVector feature length)
  | .source s => .source (s.populateVertexVector feature length)
  | .composite c => .composite (c.populateVertexVector feature length)

/-- Mirrors `PaintPropertyBinder::upload`: dispatches on the active
strategy. -/
def upload {Feature T S A : Type} (b : PaintPropertyBinder Feature T S A) :
    PaintPropertyBinder Feature T S A :=
  match b with
  | .constant c => .constant c.upload
  | .source s => .source s.upload
  | .composite c => .composite c.upload

/-- Mirrors `PaintPropertyBinder::attributeBinding(currentValue)`:
dispatches on the active strategy, injecting each strategy's binding into
the binding variant.  A `const` method: the returned state is the
receiver. -/
def attributeBinding {Feature T S A : Type}
    (b : PaintPropertyBinder Feature T S A)
    (currentValue : PossiblyEvaluatedPropertyValue T) :
    Option (DispatchBinding A) × PaintPropertyBinder Feature T S A :=
  match b with
  | .constant c => (some (.inl (c.attributeBinding currentValue).1), b)
  | .source s => ((s.attributeBinding currentValue).1.map .inl, b)
  | .composite c => ((c.attributeBinding currentValue).1.map .inr, b)

/-- Mirrors `PaintPropertyBinder::interpolationUniformValue(currentZoom)`:
the active strategy's interpolation factor, wrapped as the uniform value.
A `const` method: the returned state is the receiver. -/
noncomputable def interpolationUniformValue {Feature T S A : Type}
    (b : PaintPropertyBinder Feature T S A) (currentZoom : ℝ) :
    ℝ × PaintPropertyBinder Feature T S A :=
  match b with
  | .constant c => ((c.interpolationFactor currentZoom).1, b)
  | .source s => ((s.interpolationFactor currentZoom).1, b)
  | .composite c => ((c.interpolationFactor currentZoom).1, b)

/-- The vertex stream of the active strategy, each record injected into the
common record variant (the constant strategy stores no records). -/
def vertexStream {Feature T S A : Type}
    (b : PaintPropertyBinder Feature T S A) : List (A ⊕ (A × A)) :=
  match b with
  | .constant _ => []
  | .source s => s.vertexVector.map .inl
  | .composite c => c.vertexVector.map .inr

end PaintPropertyBinder

/-- `PaintPropertyBinders<TypeList<Ps...>>`: one `PaintPropertyBinder` per
declared paint property, in declaration order (the heterogeneous indexed
tuple is modelled as an ordered list over common parameter types). -/
structure PaintPropertyBinders (Feature T S A : Type) where
  binders : List (PaintPropertyBinder Feature T S A)

namespace PaintPropertyBinders

/-- Mirrors `PaintPropertyBinders::populateVertexVectors(feature, length)`:
forwards to every property's binder in declared order. -/
def populateVertexVectors {Feature T S A : Type}
    (ps : PaintPropertyBinders Feature T S A) (feature : Feature)
    (length : ℕ) : PaintPropertyBinders Feature T S A :=
  ⟨ps.binders.map fun b => b.populateVertexVector feature length⟩

/-- Mirrors `PaintPropertyBinders::upload(context)`: forwards to every
property's binder. -/
def upload {Feature T S A : Type} (ps : PaintPropertyBinders Feature T S A) :
    PaintPropertyBinders Feature T S A :=
  ⟨ps.binders.map fun b => b.upload⟩

/-- Mirrors `PaintPropertyBinders::attributeBindings(currentProperties)`:
one attribute binding per property, each binder paired with its property's
current value, in declared order.  A `const` method: the returned state is
the receiver. -/
def attributeBindings {Feature T S A : Type}
    (ps : PaintPropertyBinders Feature T S A)
    (currentProperties : List (PossiblyEvaluatedPropertyValue T)) :
    List (Option (DispatchBinding A)) × PaintPropertyBinders Feature T S A :=
  (List.zipWith (fun b p => (b.attributeBinding p).1) ps.binders
    currentProperties, ps)

/-- Mirrors `PaintPropertyBinders::uniformValues(currentZoom)`: one
interpolation uniform per property, recomputed fresh from `currentZoom`.
A `const` method: the returned state is the receiver. -/
noncomputable def uniformValues {Feature T S A : Type}
    (ps : PaintPropertyBinders Feature T S A) (currentZoom : ℝ) :
    List ℝ × PaintPropertyBinders Feature T S A :=
  (ps.binders.map fun b => (b.interpolationUniformValue currentZoom).1, ps)

end PaintPropertyBinders

/-- A zoom-indexed sequence of `populateVertexVector` calls applied in
order, as performed while a tile's features are tessellated. -/
def PaintPropertyBinder.populateSeq {Feature T S A : Type}
    (b : PaintPropertyBinder Feature T S A) (calls : List (Feature × ℕ)) :
    PaintPropertyBinder Feature T S A :=
  calls.foldl (fun b c => b.populateVertexVector c.1 c.2) b

/-! ### Concrete fixtures used by witnesses and counterexamples -/

/-- The spec's scenario source function `f(feature) = feature.size * 2`,
with a feature modelled by its size. -/
def srcFn2x : SourceFunction ℕ ℕ := ⟨fun s => some (s * 2)⟩

/-- A source-function binder for `srcFn2x` with default 1. -/
def srcBinderEx : SourceFunctionPaintPropertyBinder ℕ ℕ ℕ :=
  SourceFunctionPaintPropertyBinder.construct srcFn2x 1 id

/-- The scenario binder after populating the size-3 feature to 4 vertices. -/
def srcB1 : SourceFunctionPaintPropertyBinder ℕ ℕ ℕ :=
  srcBinderEx.populateVertexVector 3 4

/-- The scenario binder after additionally populating the size-5 feature to
10 vertices. -/
def srcB2 : SourceFunctionPaintPropertyBinder ℕ ℕ ℕ :=
  srcB1.populateVertexVector 5 10

/-- A composite function with interpolation base `base` and constant
covering ranges `zr` for the zoom bracket. -/
noncomputable def compFnEx (base : ℝ) (zr : Range ℝ) :
    CompositeFunction ℕ ℕ ℕ :=
  ⟨base, fun _ => (zr, ⟨0, 0⟩), fun _ f _ => ⟨f, f + 1⟩⟩

/-- A composite binder with base 1 and zoom stops [10, 15]. -/
noncomputable def compBinderEx :
    CompositeFunctionPaintPropertyBinder ℕ ℕ ℕ ℕ :=
  CompositeFunctionPaintPropertyBinder.construct (compFnEx 1 ⟨10, 15⟩) 12 0 id

/-- A composite binder whose function declares base 2, zoom stops [10, 12]. -/
noncomputable def compBinderBase2 :
    CompositeFunctionPaintPropertyBinder ℕ ℕ ℕ ℕ :=
  CompositeFunctionPaintPropertyBinder.construct (compFnEx 2 ⟨10, 12⟩) 11 0 id

/-- A source binder with an uploaded buffer. -/
def srcBinderUp : SourceFunctionPaintPropertyBinder ℕ ℕ ℕ :=
  (srcBinderEx.populateVertexVector 3 2).upload

/-- A composite binder with an uploaded buffer. -/
noncomputable def compBinderUp :
    CompositeFunctionPaintPropertyBinder ℕ ℕ ℕ ℕ :=
  (compBinderEx.populateVertexVector 4 2).upload

/-- A constant binder holding the constant 5. -/
def constBinderEx : ConstantPaintPropertyBinder ℕ ℕ :=
  ConstantPaintPropertyBinder.construct 5 id

/-- The scenario source binder wrapped in the dispatcher variant. -/
def pbSrcB1 : PaintPropertyBinder ℕ ℕ ℕ ℕ := .source srcB1

/-- The fresh source binder wrapped in the dispatcher variant. -/
def pbSrcEx : PaintPropertyBinder ℕ ℕ ℕ ℕ := .source srcBinderEx

/-- A one-property property-set binder holding the constant strategy. -/
def psConstEx : PaintPropertyBinders ℕ ℕ ℕ ℕ :=
  ⟨[.constant constBinderEx]⟩

/-! ### Helper lemmas -/

theorem emplaceLoop_eq_append {V : Type} (value : V) (length : ℕ)
    (vec : List V) :
    emplaceLoop value length vec
      = vec ++ List.replicate (length - vec.length) value := by
  suffices h : ∀ (n : ℕ) (vec : List V), length - vec.length = n →
      emplaceLoop value length vec
        = vec ++ List.replicate (length - vec.length) value from h _ vec rfl
  intro n
  induction n with
  | zero =>
    intro vec h0
    rw [emplaceLoop, if_neg (by omega), h0]
    simp
  | succ n ih =>
    intro vec hn
    have hlt : vec.length < length := by omega
    rw [emplaceLoop, if_pos hlt, ih (vec ++ [value]) (by simp; omega)]
    have h1 : (vec ++ [value]).length = vec.length + 1 := by simp
    rw [h1, List.append_assoc]
    have h2 : length - vec.length = (length - (vec.length + 1)) + 1 := by omega
    rw [h2, List.replicate_succ]
    rfl

theorem emplaceLoop_length {V : Type} (value : V) (length : ℕ)
    (vec : List V) :
    (emplaceLoop value length vec).length = max vec.length length := by
  rw [emplaceLoop_eq_append]
  simp
  omega

theorem SourceFunctionPaintPropertyBinder.populate_vertexVector_eq
    {Feature T A : Type} (b : SourceFunctionPaintPropertyBinder Feature T A)
    (feature : Feature) (length : ℕ) :
    (b.populateVertexVector feature length).vertexVector
      = b.vertexVector ++ List.replicate (length - b.vertexVector.length)
          (b.aval (b.function.evaluate feature b.defaultValue)) := by
  simp [populateVertexVector, emplaceLoop_eq_append]

theorem CompositeFunctionPaintPropertyBinder.populate_minMax_eq
    {Feature T S A : Type}
    (b : CompositeFunctionPaintPropertyBinder Feature T S A)
    (feature : Feature) (length : ℕ) :
    (b.populateVertexVector feature length).vertexVector
      = b.vertexVector ++ List.replicate (length - b.vertexVector.length)
          (b.aval (b.function.evaluate b.coveringRanges.2 feature
              b.defaultValue).min,
            b.aval (b.function.evaluate b.coveringRanges.2 feature
              b.defaultValue).max) := by
  simp [populateVertexVector, emplaceLoop_eq_append]

theorem PaintPropertyBinder.vertexStream_populate_append {Feature T S A : Type}
    (b : PaintPropertyBinder Feature T S A) (feature : Feature) (length : ℕ) :
    ∃ tail, (b.populateVertexVector feature length).vertexStream
      = b.vertexStream ++ tail := by
  cases b with
  | constant c =>
      exact ⟨[], by simp [populateVertexVector, vertexStream,
        ConstantPaintPropertyBinder.populateVertexVector]⟩
  | source s =>
      simp only [populateVertexVector, vertexStream,
        SourceFunctionPaintPropertyBinder.populate_vertexVector_eq,
        List.map_append]
      exact ⟨_, rfl⟩
  | composite c =>
      simp only [populateVertexVector, vertexStream,
        CompositeFunctionPaintPropertyBinder.populate_minMax_eq,
        List.map_append]
      exact ⟨_, rfl⟩

theorem PaintPropertyBinder.vertexStream_populateSeq_append
    {Feature T S A : Type} (b : PaintPropertyBinder Feature T S A)
    (calls : List (Feature × ℕ)) :
    ∃ tail, (b.populateSeq calls).vertexStream = b.vertexStream ++ tail := by
  induction calls generalizing b with
  | nil => exact ⟨[], by simp [populateSeq]⟩
  | cons c rest ih =>
      obtain ⟨t1, h1⟩ := vertexStream_populate_append b c.1 c.2
      obtain ⟨t2, h2⟩ := ih (b.populateVertexVector c.1 c.2)
      exact ⟨t1 ++ t2, by
        simp [populateSeq] at h2 ⊢
        rw [h2, h1, List.append_assoc]⟩

theorem util.interpolationFactor_degenerate (base : ℝ) (r : Range ℝ) (z : ℝ)
    (h : r.max - r.min = 0) : util.interpolationFactor base r z = 0 := by
  rw [util.interpolationFactor, if_pos h]

theorem util.interpolationFactor_base_one (r : Range ℝ) (z : ℝ)
    (h : r.max - r.min ≠ 0) :
    util.interpolationFactor 1 r z = (z - r.min) / (r.max - r.min) := by
  rw [util.interpolationFactor, if_neg h, if_pos rfl]

theorem srcB1_vertexVector : srcB1.vertexVector = [6, 6, 6, 6] := by
  show (srcBinderEx.populateVertexVector 3 4).vertexVector = _
  rw [SourceFunctionPaintPropertyBinder.populate_vertexVector_eq]
  decide

/-! ### Claims -/

/-- C2: for every source-function binder, feature, and `targetLength` at
least the current vertex count, `populateVertexVector` evaluates the
expression on the feature once (substituting the property default on
evaluation failure) and appends exactly `targetLength − priorLength` copies
of that single value, bringing the stream to `targetLength` records. -/
theorem C2_source_populate_replicates {Feature T A : Type}
    (b : SourceFunctionPaintPropertyBinder Feature T A) (feature : Feature)
    (targetLength : ℕ) (h : b.vertexVector.length ≤ targetLength) :
    (b.populateVertexVector feature targetLength).vertexVector
      = b.vertexVector
          ++ List.replicate (targetLength - b.vertexVector.length)
            (b.aval (b.function.evaluate feature b.defaultValue))
    ∧ (b.populateVertexVector feature targetLength).vertexVector.length
        = targetLength
    ∧ (∀ t, b.function.eval feature = some t →
        b.function.evaluate feature b.defaultValue = t)
    ∧ (b.function.eval feature = none →
        b.function.evaluate feature b.defaultValue = b.defaultValue) := by
  refine ⟨SourceFunctionPaintPropertyBinder.populate_vertexVector_eq b feature
    targetLength, ?_, ?_, ?_⟩
  · rw [SourceFunctionPaintPropertyBinder.populate_vertexVector_eq]
    simp
    omega
  · intro t ht
    simp [SourceFunction.evaluate, ht]
  · intro ht
    simp [SourceFunction.evaluate, ht]

/-- Witness for C2: the spec scenario — source function
`f(feature) = feature.size * 2` with default 1, features of sizes 3 and 5
with vertex counts 4 and 6, yielding four vertices valued 6 followed by six
vertices valued 10. -/
theorem C2_source_populate_replicates_witness :
    srcB1.vertexVector.length ≤ 10
    ∧ srcB2.vertexVector
        = srcB1.vertexVector
            ++ List.replicate (10 - srcB1.vertexVector.length)
              (srcB1.aval (srcB1.function.evaluate 5 srcB1.defaultValue))
    ∧ srcB2.vertexVector = [6, 6, 6, 6, 10, 10, 10, 10, 10, 10] := by
  have hlen : srcB1.vertexVector.length ≤ 10 := by
    rw [srcB1_vertexVector]
    decide
  refine ⟨hlen, (C2_source_populate_replicates srcB1 5 10 hlen).1, ?_⟩
  show (srcB1.populateVertexVector 5 10).vertexVector = _
  rw [SourceFunctionPaintPropertyBinder.populate_vertexVector_eq,
    srcB1_vertexVector]
  decide

/-- C3: for every composite-function binder, feature, and `targetLength`,
`populateVertexVector` evaluates the function at the inner stops fixed at
construction to one `(min, max)` range, packs both endpoints into a single
attribute value, and replicates it until the stream reaches `targetLength`;
the operation is independent of the zoom half of the covering ranges, so no
zoom-dependent blending between min and max takes place. -/
theorem C3_composite_populate_packs {Feature T S A : Type}
    (b : CompositeFunctionPaintPropertyBinder Feature T S A)
    (feature : Feature) (targetLength : ℕ) :
    (b.populateVertexVector feature targetLength).vertexVector
      = b.vertexVector
          ++ List.replicate (targetLength - b.vertexVector.length)
            (b.aval (b.function.evaluate b.coveringRanges.2 feature
                b.defaultValue).min,
              b.aval (b.function.evaluate b.coveringRanges.2 feature
                b.defaultValue).max)
    ∧ (b.populateVertexVector feature targetLength).vertexVector.length
        = max b.vertexVector.length targetLength
    ∧ ∀ zoomRange : Range ℝ,
        (CompositeFunctionPaintPropertyBinder.populateVertexVector
          { b with coveringRanges := (zoomRange, b.coveringRanges.2) }
          feature targetLength).vertexVector
        = (b.populateVertexVector feature targetLength).vertexVector := by
  refine ⟨CompositeFunctionPaintPropertyBinder.populate_minMax_eq b feature
    targetLength, ?_, ?_⟩
  · rw [CompositeFunctionPaintPropertyBinder.populate_minMax_eq]
    simp
    omega
  · intro zoomRange
    rw [CompositeFunctionPaintPropertyBinder.populate_minMax_eq,
      CompositeFunctionPaintPropertyBinder.populate_minMax_eq]

/-- C1 (amended): for every composite-function binder,
`interpolationFactor(currentZoom)` computes the normalized position of
`currentZoom` within the bracketing zoom range fixed at construction using
base 1.0 — linear interpolation — always, regardless of the
zoom-interpolation base the function declares. -/
theorem C1_interpolationFactor_base_one {Feature T S A : Type}
    (b : CompositeFunctionPaintPropertyBinder Feature T S A)
    (currentZoom : ℝ) :
    (b.interpolationFactor currentZoom).1
      = util.interpolationFactor 1 b.coveringRanges.1 currentZoom
    ∧ (∀ declaredBase : ℝ,
        (CompositeFunctionPaintPropertyBinder.interpolationFactor
          { b with function := { b.function with base := declaredBase } }
          currentZoom).1
        = (b.interpolationFactor currentZoom).1)
    ∧ (b.coveringRanges.1.max - b.coveringRanges.1.min ≠ 0 →
        (b.interpolationFactor currentZoom).1
          = (currentZoom - b.coveringRanges.1.min)
            / (b.coveringRanges.1.max - b.coveringRanges.1.min))
    ∧ (b.coveringRanges.1.max - b.coveringRanges.1.min = 0 →
        (b.interpolationFactor currentZoom).1 = 0) := by
  refine ⟨rfl, fun _ => rfl, ?_, ?_⟩
  · intro h
    exact util.interpolationFactor_base_one _ _ h
  · intro h
    exact util.interpolationFactor_degenerate _ _ _ h

/-- Witness for C1 (amended): zoom stops [10, 15], current zoom 12.5, with
the linear formula giving (12.5 − 10) / (15 − 10). -/
theorem C1_interpolationFactor_base_one_witness :
    compBinderEx.coveringRanges.1.max - compBinderEx.coveringRanges.1.min ≠ 0
    ∧ (compBinderEx.interpolationFactor (25 / 2)).1
        = ((25 / 2 : ℝ) - compBinderEx.coveringRanges.1.min)
            / (compBinderEx.coveringRanges.1.max
                - compBinderEx.coveringRanges.1.min) := by
  have h : compBinderEx.coveringRanges.1.max
      - compBinderEx.coveringRanges.1.min ≠ 0 := by
    show (15 : ℝ) - 10 ≠ 0
    norm_num
  exact ⟨h, (C1_interpolationFactor_base_one compBinderEx (25 / 2)).2.2.1 h⟩

/-- Counterexample to C1 as stated: a composite function declaring base 2
over zoom stops [10, 12], queried at zoom 11.  The binder returns the
linear factor 1/2 (it hard-codes base 1.0 at the call site), while the
style specification's exponential formula for the declared base gives
(2¹ − 1)/(2² − 1) = 1/3. -/
theorem C1_counterexample :
    ¬ ((compBinderBase2.interpolationFactor 11).1
        = util.interpolationFactor compBinderBase2.function.base
            compBinderBase2.coveringRanges.1 11) := by
  have hne : (Range.mk (10 : ℝ) 12).max - (Range.mk (10 : ℝ) 12).min ≠ 0 := by
    show (12 : ℝ) - 10 ≠ 0
    norm_num
  have hL : (compBinderBase2.interpolationFactor 11).1 = 1 / 2 := by
    show util.interpolationFactor 1 ⟨10, 12⟩ 11 = 1 / 2
    rw [util.interpolationFactor_base_one _ _ hne]
    show ((11 : ℝ) - 10) / (12 - 10) = 1 / 2
    norm_num
  have hR : util.interpolationFactor compBinderBase2.function.base
      compBinderBase2.coveringRanges.1 11 = 1 / 3 := by
    show util.interpolationFactor 2 ⟨10, 12⟩ 11 = 1 / 3
    rw [util.interpolationFactor, if_neg hne, if_neg (by norm_num)]
    show ((2 : ℝ) ^ ((11 : ℝ) - 10) - 1) / ((2 : ℝ) ^ ((12 : ℝ) - 10) - 1)
      = 1 / 3
    rw [show (11 : ℝ) - 10 = 1 by norm_num, show (12 : ℝ) - 10 = 2 by norm_num,
      Real.rpow_one, Real.rpow_two]
    norm_num
  rw [hL, hR]
  norm_num

/-- C4: for every composite-function binder whose function declares base
1.0, the interpolation factor is monotonically non-decreasing within the
bracketing range and equals 0 at the lower stop and 1 at the upper stop. -/
theorem C4_interpolationFactor_monotone {Feature T S A : Type}
    (b : CompositeFunctionPaintPropertyBinder Feature T S A)
    (_hbase : b.function.base = 1)
    (hlt : b.coveringRanges.1.min < b.coveringRanges.1.max) :
    (∀ z1 z2 : ℝ, b.coveringRanges.1.min ≤ z1 → z1 ≤ z2 →
        z2 ≤ b.coveringRanges.1.max →
        (b.interpolationFactor z1).1 ≤ (b.interpolationFactor z2).1)
    ∧ (b.interpolationFactor b.coveringRanges.1.min).1 = 0
    ∧ (b.interpolationFactor b.coveringRanges.1.max).1 = 1 := by
  have hne : b.coveringRanges.1.max - b.coveringRanges.1.min ≠ 0 :=
    sub_ne_zero.mpr (ne_of_gt hlt)
  have hpos : 0 < b.coveringRanges.1.max - b.coveringRanges.1.min := by
    linarith
  have hfac : ∀ z : ℝ, (b.interpolationFactor z).1
      = (z - b.coveringRanges.1.min)
        / (b.coveringRanges.1.max - b.coveringRanges.1.min) := fun z =>
    util.interpolationFactor_base_one _ _ hne
  refine ⟨?_, ?_, ?_⟩
  · intro z1 z2 _ h12 _
    rw [hfac, hfac]
    exact (div_le_div_iff_of_pos_right hpos).mpr (by linarith)
  · rw [hfac, sub_self, zero_div]
  · rw [hfac]
    exact div_self hne

/-- Witness for C4: zoom stops [10, 15] with base 1.0 — factor 0 at zoom
10, 1 at zoom 15, and 0.5 at zoom 12.5. -/
theorem C4_interpolationFactor_monotone_witness :
    compBinderEx.function.base = 1
    ∧ compBinderEx.coveringRanges.1.min < compBinderEx.coveringRanges.1.max
    ∧ (compBinderEx.interpolationFactor compBinderEx.coveringRanges.1.min).1
        = 0
    ∧ (compBinderEx.interpolationFactor compBinderEx.coveringRanges.1.max).1
        = 1
    ∧ (compBinderEx.interpolationFactor (25 / 2)).1 = 1 / 2 := by
  have hbase : compBinderEx.function.base = 1 := rfl
  have hlt : compBinderEx.coveringRanges.1.min
      < compBinderEx.coveringRanges.1.max := by
    show (10 : ℝ) < 15
    norm_num
  obtain ⟨-, h0, h1⟩ := C4_interpolationFactor_monotone compBinderEx hbase hlt
  refine ⟨hbase, hlt, h0, h1, ?_⟩
  show util.interpolationFactor 1 ⟨10, 15⟩ (25 / 2) = 1 / 2
  rw [util.interpolationFactor_base_one _ _ (by show (15:ℝ) - 10 ≠ 0; norm_num)]
  show ((25 / 2 : ℝ) - 10) / (15 - 10) = 1 / 2
  norm_num

/-- C5: for every composite-function binder, a zoom strictly above the
bracketing range yields an interpolation factor strictly greater than 1 —
no clamping to [0, 1] — and the call leaves the stored covering ranges
untouched (no re-bracketing). -/
theorem C5_interpolationFactor_not_clamped {Feature T S A : Type}
    (b : CompositeFunctionPaintPropertyBinder Feature T S A) (currentZoom : ℝ)
    (hlt : b.coveringRanges.1.min < b.coveringRanges.1.max)
    (hz : b.coveringRanges.1.max < currentZoom) :
    1 < (b.interpolationFactor currentZoom).1
    ∧ (b.interpolationFactor currentZoom).2.coveringRanges
        = b.coveringRanges := by
  have hne : b.coveringRanges.1.max - b.coveringRanges.1.min ≠ 0 :=
    sub_ne_zero.mpr (ne_of_gt hlt)
  have hpos : 0 < b.coveringRanges.1.max - b.coveringRanges.1.min := by
    linarith
  constructor
  · rw [show (b.interpolationFactor currentZoom).1
        = util.interpolationFactor 1 b.coveringRanges.1 currentZoom from rfl,
      util.interpolationFactor_base_one _ _ hne]
    exact (one_lt_div hpos).mpr (by linarith)
  · rfl

/-- Witness for C5: zoom stops [10, 15], zoom 17 — the factor is
(17 − 10)/(15 − 10) = 1.4 > 1, unclamped. -/
theorem C5_interpolationFactor_not_clamped_witness :
    compBinderEx.coveringRanges.1.min < compBinderEx.coveringRanges.1.max
    ∧ compBinderEx.coveringRanges.1.max < 17
    ∧ 1 < (compBinderEx.interpolationFactor 17).1
    ∧ (compBinderEx.interpolationFactor 17).1 = 7 / 5 := by
  have hlt : compBinderEx.coveringRanges.1.min
      < compBinderEx.coveringRanges.1.max := by
    show (10 : ℝ) < 15
    norm_num
  have hz : compBinderEx.coveringRanges.1.max < (17 : ℝ) := by
    show (15 : ℝ) < 17
    norm_num
  refine ⟨hlt, hz,
    (C5_interpolationFactor_not_clamped compBinderEx 17 hlt hz).1, ?_⟩
  show util.interpolationFactor 1 ⟨10, 15⟩ 17 = 7 / 5
  rw [util.interpolationFactor_base_one _ _ (by show (15:ℝ) - 10 ≠ 0; norm_num)]
  show ((17 : ℝ) - 10) / (15 - 10) = 7 / 5
  norm_num

/-- C6: for every source-function binder and every composite-function
binder, `attributeBinding` branches per call on the live value: a constant
live value yields a broadcast constant binding (the composite binder
packing the pair `(value, value)`), and a non-constant live value yields a
reference into the uploaded buffer. -/
theorem C6_attributeBinding_branches {Feature T S A : Type}
    (sb : SourceFunctionPaintPropertyBinder Feature T A)
    (cb : CompositeFunctionPaintPropertyBinder Feature T S A) (t : T)
    (sbuf : List A) (cbuf : List (A × A)) :
    ((sb.attributeBinding (.constant t)).1
        = some (.constantBinding (sb.aval t)))
    ∧ (sb.vertexBuffer = some sbuf →
        (sb.attributeBinding .function).1 = some (.variableBinding sbuf))
    ∧ ((cb.attributeBinding (.constant t)).1
        = some (.constantBinding (cb.aval t, cb.aval t)))
    ∧ (cb.vertexBuffer = some cbuf →
        (cb.attributeBinding .function).1 = some (.variableBinding cbuf)) := by
  refine ⟨rfl, ?_, rfl, ?_⟩
  · intro h
    simp [SourceFunctionPaintPropertyBinder.attributeBinding,
      PossiblyEvaluatedPropertyValue.constantValue, h]
  · intro h
    simp [CompositeFunctionPaintPropertyBinder.attributeBinding,
      PossiblyEvaluatedPropertyValue.constantValue, h]

/-- Witness for C6: uploaded source and composite binders serve buffer
references for a non-constant live value and broadcasts for a constant
one. -/
theorem C6_attributeBinding_branches_witness :
    srcBinderUp.vertexBuffer = some [6, 6]
    ∧ compBinderUp.vertexBuffer = some [(4, 5), (4, 5)]
    ∧ (srcBinderUp.attributeBinding .function).1
        = some (.variableBinding [6, 6])
    ∧ (compBinderUp.attributeBinding .function).1
        = some (.variableBinding [(4, 5), (4, 5)])
    ∧ (srcBinderUp.attributeBinding (.constant 9)).1
        = some (.constantBinding 9)
    ∧ (compBinderUp.attributeBinding (.constant 9)).1
        = some (.constantBinding (9, 9)) := by
  have hs : srcBinderUp.vertexBuffer = some [6, 6] := by
    show some (srcBinderEx.populateVertexVector 3 2).vertexVector = _
    rw [SourceFunctionPaintPropertyBinder.populate_vertexVector_eq]
    decide
  have hc : compBinderUp.vertexBuffer = some [(4, 5), (4, 5)] := by
    show some (compBinderEx.populateVertexVector 4 2).vertexVector = _
    rw [CompositeFunctionPaintPropertyBinder.populate_minMax_eq]
    decide
  obtain ⟨h1, h2, h3, h4⟩ :=
    C6_attributeBinding_branches srcBinderUp compBinderUp 9 [6, 6]
      [(4, 5), (4, 5)]
  exact ⟨hs, hc, h2 hs, h4 hc, h1, h3⟩

/-- C7: for every constant binder, `attributeBinding(currentValue)` is
always a broadcast binding — valued at `currentValue`'s constant when it
resolves to one and at the construction-time constant otherwise — and is
never a buffer reference. -/
theorem C7_constant_attributeBinding {T A : Type}
    (b : ConstantPaintPropertyBinder T A)
    (cv : PossiblyEvaluatedPropertyValue T) :
    (b.attributeBinding cv).1
      = .constantBinding (b.aval (cv.constantOr b.constant))
    ∧ (∀ t, cv = .constant t →
        (b.attributeBinding cv).1 = .constantBinding (b.aval t))
    ∧ (cv = .function →
        (b.attributeBinding cv).1 = .constantBinding (b.aval b.constant))
    ∧ ∀ buffer, (b.attributeBinding cv).1 ≠ .variableBinding buffer := by
  refine ⟨rfl, ?_, ?_, ?_⟩
  · rintro t rfl
    rfl
  · rintro rfl
    rfl
  · intro buffer h
    rw [show (b.attributeBinding cv).1
      = .constantBinding (b.aval (cv.constantOr b.constant)) from rfl] at h
    exact AttributeBinding.noConfusion h

/-- Witness for C7: the constant binder holding 5 broadcasts a live
constant 9, falls back to 5 for a non-constant live value, and never
returns a buffer reference. -/
theorem C7_constant_attributeBinding_witness :
    ((constBinderEx.attributeBinding (.constant 9)).1 = .constantBinding 9)
    ∧ ((constBinderEx.attributeBinding .function).1 = .constantBinding 5)
    ∧ ∀ buffer,
        (constBinderEx.attributeBinding .function).1
          ≠ .variableBinding buffer := by
  obtain ⟨-, h2, -, -⟩ := C7_constant_attributeBinding constBinderEx
    (.constant 9)
  obtain ⟨-, -, h3, h4⟩ := C7_constant_attributeBinding constBinderEx .function
  exact ⟨h2 9 rfl, h3 rfl, h4⟩

/-- C8: for every binder, populating is append-only: over any sequence of
`populateVertexVector` calls the existing vertex records are preserved
verbatim and the stream never shrinks, and a call whose `targetLength` does
not exceed the current vertex count leaves the stream unchanged. -/
theorem C8_populate_append_only {Feature T S A : Type}
    (b : PaintPropertyBinder Feature T S A) (calls : List (Feature × ℕ)) :
    ((b.populateSeq calls).vertexStream.take b.vertexStream.length
        = b.vertexStream)
    ∧ b.vertexStream.length ≤ (b.populateSeq calls).vertexStream.length
    ∧ ∀ (feature : Feature) (targetLength : ℕ),
        targetLength ≤ b.vertexStream.length →
          (b.populateVertexVector feature targetLength).vertexStream
            = b.vertexStream := by
  obtain ⟨tail, htail⟩ :=
    PaintPropertyBinder.vertexStream_populateSeq_append b calls
  refine ⟨by rw [htail]; exact List.take_left _ _, by rw [htail]; simp, ?_⟩
  intro feature targetLength hle
  cases b with
  | constant c => rfl
  | source s =>
      simp only [PaintPropertyBinder.vertexStream, List.length_map] at hle
      simp [PaintPropertyBinder.populateVertexVector,
        PaintPropertyBinder.vertexStream,
        SourceFunctionPaintPropertyBinder.populate_vertexVector_eq,
        Nat.sub_eq_zero_of_le hle]
  | composite c =>
      simp only [PaintPropertyBinder.vertexStream, List.length_map] at hle
      simp [PaintPropertyBinder.populateVertexVector,
        PaintPropertyBinder.vertexStream,
        CompositeFunctionPaintPropertyBinder.populate_minMax_eq,
        Nat.sub_eq_zero_of_le hle]

/-- Witness for C8: the populated scenario binder keeps its four records
under a later call, and a call with `targetLength` 3 ≤ 4 leaves the stream
unchanged. -/
theorem C8_populate_append_only_witness :
    (pbSrcB1.populateSeq [(5, 10)]).vertexStream.take
        pbSrcB1.vertexStream.length
      = pbSrcB1.vertexStream
    ∧ (3 ≤ pbSrcB1.vertexStream.length)
    ∧ (pbSrcB1.populateVertexVector 5 3).vertexStream
        = pbSrcB1.vertexStream := by
  have h3 : (3 : ℕ) ≤ pbSrcB1.vertexStream.length := by
    show 3 ≤ (srcB1.vertexVector.map Sum.inl).length
    rw [srcB1_vertexVector]
    decide
  obtain ⟨h1, -, h2⟩ := C8_populate_append_only pbSrcB1 [(5, 10)]
  exact ⟨h1, h3, h2 5 3 h3⟩

/-- C9: for both data-driven binders the constant branch of
`attributeBinding` is well-defined without any upload — it never touches
the buffer handle (removing the handle leaves the result unchanged), while
the non-constant branch dereferences the handle and is vacuous when no
buffer was uploaded. -/
theorem C9_constant_branch_no_buffer {Feature T S A : Type}
    (sb : SourceFunctionPaintPropertyBinder Feature T A)
    (cb : CompositeFunctionPaintPropertyBinder Feature T S A) (t : T) :
    ((sb.attributeBinding (.constant t)).1
        = some (.constantBinding (sb.aval t)))
    ∧ (SourceFunctionPaintPropertyBinder.attributeBinding
        { sb with vertexBuffer := none } (.constant t)).1
        = (sb.attributeBinding (.constant t)).1
    ∧ (sb.vertexBuffer = none → (sb.attributeBinding .function).1 = none)
    ∧ ((cb.attributeBinding (.constant t)).1
        = some (.constantBinding (cb.aval t, cb.aval t)))
    ∧ (CompositeFunctionPaintPropertyBinder.attributeBinding
        { cb with vertexBuffer := none } (.constant t)).1
        = (cb.attributeBinding (.constant t)).1
    ∧ (cb.vertexBuffer = none → (cb.attributeBinding .function).1 = none) := by
  refine ⟨rfl, rfl, ?_, rfl, rfl, ?_⟩
  · intro h
    simp [SourceFunctionPaintPropertyBinder.attributeBinding,
      PossiblyEvaluatedPropertyValue.constantValue, h]
  · intro h
    simp [CompositeFunctionPaintPropertyBinder.attributeBinding,
      PossiblyEvaluatedPropertyValue.constantValue, h]

/-- Witness for C9: the freshly constructed binders have no uploaded
buffer, yet their constant branch already serves a broadcast binding; the
non-constant branch yields nothing. -/
theorem C9_constant_branch_no_buffer_witness :
    srcBinderEx.vertexBuffer = none
    ∧ compBinderEx.vertexBuffer = none
    ∧ (srcBinderEx.attributeBinding (.constant 9)).1
        = some (.constantBinding 9)
    ∧ (srcBinderEx.attributeBinding .function).1 = none
    ∧ (compBinderEx.attributeBinding (.constant 9)).1
        = some (.constantBinding (9, 9))
    ∧ (compBinderEx.attributeBinding .function).1 = none := by
  obtain ⟨h1, -, h3, h4, -, h6⟩ :=
    C9_constant_branch_no_buffer srcBinderEx compBinderEx 9
  exact ⟨rfl, rfl, h1, h3 rfl, h4, h6 rfl⟩

/-- C10: the per-frame queries — `attributeBinding` and
`interpolationFactor` on every binder variant, and the aggregated
`attributeBindings` and `uniformValues` — leave the binder state (stored
constant or function, default, covering ranges, vertex stream, buffer
handle) unchanged, and equal arguments on equal states give equal
results. -/
theorem C10_queries_pure {Feature T S A : Type}
    (pb : PaintPropertyBinder Feature T S A)
    (cv : PossiblyEvaluatedPropertyValue T) (z : ℝ)
    (ps : PaintPropertyBinders Feature T S A)
    (props : List (PossiblyEvaluatedPropertyValue T))
    (cb : ConstantPaintPropertyBinder T A)
    (sb : SourceFunctionPaintPropertyBinder Feature T A)
    (xb : CompositeFunctionPaintPropertyBinder Feature T S A) :
    (pb.attributeBinding cv).2 = pb
    ∧ (pb.interpolationUniformValue z).2 = pb
    ∧ (cb.attributeBinding cv).2 = cb
    ∧ (cb.interpolationFactor z).2 = cb
    ∧ (sb.attributeBinding cv).2 = sb
    ∧ (sb.interpolationFactor z).2 = sb
    ∧ (xb.attributeBinding cv).2 = xb
    ∧ (xb.interpolationFactor z).2 = xb
    ∧ (ps.attributeBindings props).2 = ps
    ∧ (ps.uniformValues z).2 = ps
    ∧ (∀ pb' cv', pb' = pb → cv' = cv →
        (PaintPropertyBinder.attributeBinding pb' cv').1
          = (pb.attributeBinding cv).1)
    ∧ (∀ pb' (z' : ℝ), pb' = pb → z' = z →
        (PaintPropertyBinder.interpolationUniformValue pb' z').1
          = (pb.interpolationUniformValue z).1) := by
  refine ⟨?_, ?_, rfl, rfl, rfl, rfl, rfl, rfl, rfl, rfl, ?_, ?_⟩
  · cases pb <;> rfl
  · cases pb <;> rfl
  · rintro pb' cv' rfl rfl
    rfl
  · rintro pb' z' rfl rfl
    rfl

/-- Witness for C10: a concrete dispatcher query and a concrete aggregate
query return the state they were called on, and repeating a call with the
same arguments repeats the result. -/
theorem C10_queries_pure_witness :
    (pbSrcEx.attributeBinding .function).2 = pbSrcEx
    ∧ (psConstEx.uniformValues 0).2 = psConstEx
    ∧ (pbSrcEx.attributeBinding .function).1
      = (pbSrcEx.attributeBinding .function).1 := by
  obtain ⟨h1, -, -, -, -, -, -, -, -, h10, h11, -⟩ :=
    C10_queries_pure pbSrcEx .function 0 psConstEx []
      constBinderEx srcBinderEx compBinderEx
  exact ⟨h1, h10, h11 _ _ rfl rfl⟩
